import Mathlib

/-!
Verification development for the Python_REST_Tracing_Demo repository.

The repository's single source file (`src/app.py`) is a FastAPI service whose
handlers drive a distributed-tracing core (span creation, active-span context
propagation across concurrently gathered branches, attribute/event/status
recording, and a batching export pipeline).  The tracing core itself is not
part of the repository's sources, so its operations are modelled from the
specification (sections 3-5 of spec.md); every such definition carries a
doc comment beginning `Modelled from the spec:`.  The application functions
(`simulate_db_lookup`, `enrich_with_radio_context`, `fetch_near_rt_ric_policy`,
`check_o_du_health`, `run_fulfilment_checks`, `check_inventory`,
`check_charging_session`, `get_order`) are translated directly from
`src/app.py`.

Concurrency: `asyncio.gather` hands every launched branch its own snapshot of
the current active-span context, all branches run to completion, and the first
branch error (if any) propagates to the joiner.  The embedding therefore runs
gathered branches in order, each receiving the same immutable active-context
snapshot; final span trees, attributes, events and statuses coincide with
those of any interleaving, which is what the claims are about.
-/

namespace TracingDemo

/-- Modelled from the spec (§3): the minimal identity linking spans — a trace
identifier shared by every span of one logical operation, a span identifier,
and an optional parent span identifier (absent for roots). -/
structure SpanContext where
  traceId : Nat
  spanId : Nat
  parentSpanId : Option Nat
deriving DecidableEq, Repr

/-- Modelled from the spec (§3): span status is Unset, Ok, or Error(message). -/
inductive SpanStatus
  | unset
  | ok
  | error (msg : String)
deriving DecidableEq, Repr

/-- Whether a status is the Error kind. -/
def SpanStatus.isError : SpanStatus → Bool
  | .error _ => true
  | _ => false

/-- Attribute values: strings, integers, booleans, or (for the one float
literal `2.3` in the source) exact rationals. -/
inductive AttrValue
  | str (s : String)
  | int (n : Int)
  | bool (b : Bool)
  | rat (q : Rat)
deriving DecidableEq, Repr

/-- Modelled from the spec (§3): an event is a named record with attributes
appended to a span's ordered event sequence. -/
structure SpanEvent where
  name : String
  attrs : List (String × AttrValue)
deriving DecidableEq, Repr

/-- Modelled from the spec (§3): a span — context, name, attributes
(last-write-wins mapping), ordered events, status, and whether it has ended. -/
structure Span where
  ctx : SpanContext
  name : String
  attributes : List (String × AttrValue)
  events : List SpanEvent
  status : SpanStatus
  ended : Bool
deriving DecidableEq, Repr

/-- The mutable tracing state threaded through a run: all spans created so far
(in creation order, `ctx.spanId` equals the creation index), fresh-id
counters, the reported lifecycle-misuse violations (spec §7: reported, never
silently swallowed), and a counter of outbound HTTP calls performed by the
application code (the external httpx call in `get_order`). -/
structure TraceState where
  spans : List Span
  nextSpanId : Nat
  nextTraceId : Nat
  violations : List String
  httpCalls : Nat
deriving DecidableEq, Repr

/-- The state at the start of handling one request: no spans, no violations,
no outbound calls. -/
def initState : TraceState :=
  { spans := [], nextSpanId := 0, nextTraceId := 0, violations := [], httpCalls := 0 }

/-- Modelled from the spec (§4.1 `start_span`): with a parent present the new
span shares the parent's `trace_id` and records the parent's `span_id`;
otherwise a fresh `trace_id` is generated and `parent_span_id` is absent.
The `span_id` is always freshly generated; the span starts running. -/
def startSpan (name : String) (active : Option SpanContext) (st : TraceState) :
    SpanContext × TraceState :=
  let tid := match active with
    | some p => p.traceId
    | none => st.nextTraceId
  let ctx : SpanContext := ⟨tid, st.nextSpanId, active.map SpanContext.spanId⟩
  (ctx,
    { st with
        spans := st.spans ++ [{ ctx := ctx, name := name, attributes := [],
                                events := [], status := SpanStatus.unset, ended := false }]
        nextSpanId := st.nextSpanId + 1
        nextTraceId := if active.isSome then st.nextTraceId else st.nextTraceId + 1 })

/-- Look up the span with the given span id. -/
def getSpan (st : TraceState) (sid : Nat) : Option Span :=
  st.spans.find? fun sp => sp.ctx.spanId == sid

/-- Apply `f` to the span with the given span id, leaving other spans alone. -/
def updateSpan (sid : Nat) (f : Span → Span) (st : TraceState) : TraceState :=
  { st with spans := st.spans.map fun sp => if sp.ctx.spanId = sid then f sp else sp }

/-- Modelled from the spec (§4.1 `set_attribute`): writing a key overwrites
any prior value stored under that key. -/
def setAttrList : List (String × AttrValue) → String → AttrValue → List (String × AttrValue)
  | [], k, v => [(k, v)]
  | p :: rest, k, v => if p.1 = k then (k, v) :: rest else p :: setAttrList rest k v

/-- First-match lookup in an attribute list (keys are kept unique by
`setAttrList`). -/
def lookupAttr : List (String × AttrValue) → String → Option AttrValue
  | [], _ => none
  | p :: rest, k => if p.1 = k then some p.2 else lookupAttr rest k

/-- Modelled from the spec (§4.1): `set_attribute(key, value)` overwrites any
prior value for `key`; calling it after the span has ended leaves the span
unchanged and is reported as a caller contract violation rather than silently
ignored. -/
def setAttribute (sid : Nat) (k : String) (v : AttrValue) (st : TraceState) : TraceState :=
  match getSpan st sid with
  | none => st
  | some sp =>
      if sp.ended then
        { st with violations := st.violations ++ ["set_attribute after end: " ++ k] }
      else
        updateSpan sid (fun s => { s with attributes := setAttrList s.attributes k v }) st

/-- Modelled from the spec (§4.1 `add_event`): appends to the ordered event
sequence; mutation after the span has ended is a reported contract
violation. -/
def addEvent (sid : Nat) (name : String) (attrs : List (String × AttrValue))
    (st : TraceState) : TraceState :=
  match getSpan st sid with
  | none => st
  | some sp =>
      if sp.ended then
        { st with violations := st.violations ++ ["add_event after end: " ++ name] }
      else
        updateSpan sid (fun s => { s with events := s.events ++ [⟨name, attrs⟩] }) st

/-- The exceptions raised by the application code: Python's
`RuntimeError(msg)` and FastAPI's `HTTPException(status_code, detail)`. -/
inductive Exn
  | runtimeError (msg : String)
  | httpException (statusCode : Nat) (detail : String)
deriving DecidableEq, Repr

/-- The Python type name of an exception, as recorded on exception events. -/
def exnType : Exn → String
  | .runtimeError _ => "RuntimeError"
  | .httpException _ _ => "HTTPException"

/-- Python's `str(e)` for the exceptions above (FastAPI renders `HTTPException` as
`"code: detail"`). -/
def exnMessage : Exn → String
  | .runtimeError m => m
  | .httpException code detail => toString code ++ ": " ++ detail

/-- Modelled from the spec (§4.1 `record_exception`): adds a structured event
capturing the error's type and message, independent of `set_status`. -/
def recordException (sid : Nat) (e : Exn) (st : TraceState) : TraceState :=
  addEvent sid "exception"
    [("exception.type", AttrValue.str (exnType e)),
     ("exception.message", AttrValue.str (exnMessage e))] st

/-- Modelled from the spec (§4.1 `set_status`): a later call overwrites the
stored status (in particular a later Error overwrites an earlier Ok/Unset);
mutation after the span has ended is a reported contract violation. -/
def setStatus (sid : Nat) (s : SpanStatus) (st : TraceState) : TraceState :=
  match getSpan st sid with
  | none => st
  | some sp =>
      if sp.ended then
        { st with violations := st.violations ++ ["set_status after end"] }
      else
        updateSpan sid (fun sp2 => { sp2 with status := s }) st

/-- Modelled from the spec (§4.1 `end`): marks the span ended (immutable from
then on); ending twice is a reported contract violation, not a crash. -/
def endSpan (sid : Nat) (st : TraceState) : TraceState :=
  match getSpan st sid with
  | none => st
  | some sp =>
      if sp.ended then
        { st with violations := st.violations ++ ["end called twice"] }
      else
        updateSpan sid (fun s => { s with ended := true }) st

/-- Modelled from the spec (§4.3 `start_as_current_span`): starts a span with
the current active context as parent, runs the body with the new span active,
ends the span on scope exit, and on an error propagating out of the scope
records the exception and sets status Error before propagating it further. -/
def withSpan (name : String)
    (body : SpanContext → TraceState → TraceState × Except Exn Unit)
    (active : Option SpanContext) (st : TraceState) : TraceState × Except Exn Unit :=
  match startSpan name active st with
  | (sc, st1) =>
    match body sc st1 with
    | (st2, Except.ok _) => (endSpan sc.spanId st2, Except.ok ())
    | (st2, Except.error e) =>
        (endSpan sc.spanId
          (setStatus sc.spanId (SpanStatus.error (exnMessage e))
            (recordException sc.spanId e st2)),
         Except.error e)

/-- Modelled from the spec (§4.2 fan-out rule, §5): an `asyncio.gather` of two
branches — each branch receives its own immutable snapshot of the active
context taken at the fan-out point, both branches run to completion, and the
first branch error (if any) propagates to the joiner. -/
def gather2 (f g : Option SpanContext → TraceState → TraceState × Except Exn Unit)
    (active : Option SpanContext) (st : TraceState) : TraceState × Except Exn Unit :=
  match f active st with
  | (st1, r1) =>
    match g active st1 with
    | (st2, r2) =>
        (st2,
          match r1 with
          | Except.error e => Except.error e
          | Except.ok _ => r2)

/-- Modelled from the spec (§4.2 fan-out rule, §5): a three-way
`asyncio.gather`, as `gather2`. -/
def gather3 (f g h : Option SpanContext → TraceState → TraceState × Except Exn Unit)
    (active : Option SpanContext) (st : TraceState) : TraceState × Except Exn Unit :=
  match f active st with
  | (st1, r1) =>
    match g active st1 with
    | (st2, r2) =>
      match h active st2 with
      | (st3, r3) =>
          (st3,
            match r1 with
            | Except.error e => Except.error e
            | Except.ok _ =>
                match r2 with
                | Except.error e => Except.error e
                | Except.ok _ => r3)

/-- Python's `f"{s:0>6}"`: pad `s` on the left with '0' to width 6. -/
def padZeros6 (s : String) : String :=
  String.mk (List.replicate (6 - s.length) '0') ++ s

/-- Translation of `simulate_db_lookup`, src/app.py lines 78-95: a "db.lookup.order"
span with DB attributes and start/end events, containing a nested
"db.lookup.cache" span. -/
def simulate_db_lookup (order_id : String) :
    Option SpanContext → TraceState → TraceState × Except Exn Unit :=
  withSpan "db.lookup.order" fun span st =>
    let st := setAttribute span.spanId "db.system" (AttrValue.str "sqlite") st
    let st := setAttribute span.spanId "db.statement"
      (AttrValue.str "SELECT * FROM orders WHERE id = ?") st
    let st := setAttribute span.spanId "telecom.3gpp.slice.service.type" (AttrValue.int 1) st
    let st := addEvent span.spanId "db.lookup.start" [("order.id", AttrValue.str order_id)] st
    let r := withSpan "db.lookup.cache"
      (fun cache_span st2 =>
        let st2 := setAttribute cache_span.spanId "cache.hit" (AttrValue.bool true) st2
        let st2 := setAttribute cache_span.spanId "cache.system" (AttrValue.str "redis") st2
        let st2 := addEvent cache_span.spanId "cache.fetch"
          [("key", AttrValue.str ("order:" ++ order_id))] st2
        (st2, Except.ok ()))
      (some span) st
    match r with
    | (st3, Except.ok _) =>
        (addEvent span.spanId "db.lookup.end" [("row.count", AttrValue.int 1)] st3,
         Except.ok ())
    | (st3, Except.error e) => (st3, Except.error e)

/-- Translation of `fetch_near_rt_ric_policy`, src/app.py lines 111-119. -/
def fetch_near_rt_ric_policy (order_id : String) :
    Option SpanContext → TraceState → TraceState × Except Exn Unit :=
  withSpan "o-ran.near-rt-ric.policy" fun span st =>
    let st := setAttribute span.spanId "telecom.o-ran.near_rt_ric.id"
      (AttrValue.str "ric-210-ne") st
    let st := setAttribute span.spanId "telecom.o-ran.policy.id"
      (AttrValue.str "policy-5qi9-lowlat") st
    let st := addEvent span.spanId "o-ran.policy.apply"
      [("order.id", AttrValue.str order_id),
       ("telecom.o-ran.ran.slice", AttrValue.str "cot-slice-09")] st
    (st, Except.ok ())

/-- Translation of `check_o_du_health`, src/app.py lines 122-127. -/
def check_o_du_health :
    Option SpanContext → TraceState → TraceState × Except Exn Unit :=
  withSpan "o-ran.o-du.health" fun span st =>
    let st := setAttribute span.spanId "telecom.o-ran.o_du.id" (AttrValue.str "odu-201") st
    let st := setAttribute span.spanId "telecom.o-ran.o_du.state" (AttrValue.str "active") st
    let st := addEvent span.spanId "o-ran.o-du.heartbeat"
      [("latency.ms", AttrValue.rat (23 / 10))] st
    (st, Except.ok ())

/-- Translation of `enrich_with_radio_context`, src/app.py lines 98-108: a
"radio.context.enrichment" span that gathers `fetch_near_rt_ric_policy` and
`check_o_du_health` concurrently and then records a completion event. -/
def enrich_with_radio_context (order_id : String) :
    Option SpanContext → TraceState → TraceState × Except Exn Unit :=
  withSpan "radio.context.enrichment" fun span st =>
    let st := setAttribute span.spanId "telecom.3gpp.ue.supi"
      (AttrValue.str ("imsi-26201" ++ padZeros6 order_id)) st
    let st := setAttribute span.spanId "telecom.3gpp.qos.flow.5qi" (AttrValue.int 9) st
    let st := setAttribute span.spanId "telecom.3gpp.qos.slice.sd" (AttrValue.str "010203") st
    let r := gather2 (fetch_near_rt_ric_policy order_id) check_o_du_health (some span) st
    match r with
    | (st2, Except.ok _) =>
        (addEvent span.spanId "radio.context.complete" [] st2, Except.ok ())
    | (st2, Except.error e) => (st2, Except.error e)

/-- Translation of `check_inventory`, src/app.py lines 138-155: on `order_id == "fail"`
it records the exception, sets the span status to Error, and raises
`RuntimeError`; otherwise it records the lookup-end event. -/
def check_inventory (order_id : String) :
    Option SpanContext → TraceState → TraceState × Except Exn Unit :=
  withSpan "inventory.check" fun span st =>
    let st := setAttribute span.spanId "app.inventory.region" (AttrValue.str "eu-central") st
    let st := addEvent span.spanId "inventory.lookup.start"
      [("order.id", AttrValue.str order_id)] st
    if order_id = "fail" then
      let error_msg := "Inventory system unavailable for this ID"
      let st := recordException span.spanId (Exn.runtimeError error_msg) st
      let st := setStatus span.spanId (SpanStatus.error error_msg) st
      (st, Except.error (Exn.runtimeError error_msg))
    else
      (addEvent span.spanId "inventory.lookup.end" [("available", AttrValue.bool true)] st,
       Except.ok ())

/-- Translation of `check_charging_session`, src/app.py lines 158-164. -/
def check_charging_session (order_id : String) :
    Option SpanContext → TraceState → TraceState × Except Exn Unit :=
  withSpan "charging.session.lookup" fun span st =>
    let st := setAttribute span.spanId "telecom.3gpp.pcrf.id" (AttrValue.str "pcrf-12") st
    let st := setAttribute span.spanId "telecom.3gpp.ccf.mode" (AttrValue.str "online") st
    let st := addEvent span.spanId "charging.session.start"
      [("order.id", AttrValue.str order_id)] st
    (addEvent span.spanId "charging.session.validated"
       [("quota.mb", AttrValue.int 2048)] st,
     Except.ok ())

/-- Translation of `run_fulfilment_checks`, src/app.py lines 130-135: gathers
`check_inventory` and `check_charging_session` concurrently.  Note: it starts
no span of its own. -/
def run_fulfilment_checks (order_id : String) :
    Option SpanContext → TraceState → TraceState × Except Exn Unit :=
  gather2 (check_inventory order_id) (check_charging_session order_id)

/-- The `with tracer.start_as_current_span("load-order")` block of `get_order`
(src/app.py lines 170-188): sets request attributes, gathers the three
sub-operations concurrently, and on the simulated `RuntimeError` records the
exception, sets status Error, adds the "order.load.failed" event, and raises
`HTTPException(500, detail)`. -/
def get_order_span_scope (order_id : String) :
    Option SpanContext → TraceState → TraceState × Except Exn Unit :=
  withSpan "load-order" fun span st =>
    let st := setAttribute span.spanId "app.order_id" (AttrValue.str order_id) st
    let st := setAttribute span.spanId "telecom.3gpp.session.id"
      (AttrValue.str ("pdu-" ++ padZeros6 order_id)) st
    let r := gather3 (simulate_db_lookup order_id) (enrich_with_radio_context order_id)
      (run_fulfilment_checks order_id) (some span) st
    match r with
    | (st2, Except.ok _) =>
        (addEvent span.spanId "order.load.complete" [] st2, Except.ok ())
    | (st2, Except.error (Exn.runtimeError m)) =>
        let st3 := recordException span.spanId (Exn.runtimeError m) st2
        let st3 := setStatus span.spanId (SpanStatus.error m) st3
        let st3 := addEvent span.spanId "order.load.failed" [("reason", AttrValue.str m)] st3
        (st3, Except.error (Exn.httpException 500 m))
    | (st2, Except.error e) => (st2, Except.error e)

/-- Modelled from the spec (§1, §6): the web-request routing layer is out of
scope and FastAPI auto-instrumentation is commented out in src/app.py lines
70-75, so no server span exists; `trace.get_current_span()` simply returns
the active context of the calling branch (absent once the "load-order" scope
has exited). -/
def getCurrentSpan (active : Option SpanContext) : Option SpanContext :=
  active

/-- Modelled from the spec (§1, §6): `set_attribute` on the span returned by
`get_current_span` — with no active span this is OpenTelemetry's
non-recording invalid span, and the call changes nothing. -/
def setAttributeOnCurrent (current : Option SpanContext) (k : String) (v : AttrValue)
    (st : TraceState) : TraceState :=
  match current with
  | none => st
  | some c => setAttribute c.spanId k v st

/-- The JSON value returned by a successful `get_order`. -/
structure OrderResponse where
  id : String
  status : String
  upstream_ms : Rat
deriving DecidableEq, Repr

/-- Translation of `get_order`, src/app.py lines 167-206: runs the "load-order" span
scope (propagating any exception out of it to FastAPI), then performs the
outbound httpx call (modelled as the external measurement `upstream_ms` plus
an `httpCalls` counter increment), then sets six attributes on the current
span (the non-recording span, since no server span exists), and returns the
JSON response.  `client_ip` stands for `request.client.host`. -/
def get_order (order_id client_ip : String) (upstream_ms : Rat)
    (active : Option SpanContext) (st : TraceState) :
    TraceState × Except Exn OrderResponse :=
  match get_order_span_scope order_id active st with
  | (st1, Except.error e) => (st1, Except.error e)
  | (st1, Except.ok _) =>
      let st2 := { st1 with httpCalls := st1.httpCalls + 1 }
      let current := getCurrentSpan active
      let st3 := setAttributeOnCurrent current "enduser.id" (AttrValue.str "u-123") st2
      let st3 := setAttributeOnCurrent current "client.address" (AttrValue.str client_ip) st3
      let st3 := setAttributeOnCurrent current "app.order_id" (AttrValue.str order_id) st3
      let st3 := setAttributeOnCurrent current "telecom.3gpp.qos.flow.5qi" (AttrValue.int 9) st3
      let st3 := setAttributeOnCurrent current "telecom.o-ran.o_du.state"
        (AttrValue.str "active") st3
      let st3 := setAttributeOnCurrent current "app.upstream_ms"
        (AttrValue.rat upstream_ms) st3
      (st3, Except.ok { id := order_id, status := "ok", upstream_ms := upstream_ms })

/-- One full handling of `GET /orders/{order_id}`: since FastAPI
auto-instrumentation is commented out (src/app.py lines 70-75), the handler
starts with no active span and a fresh per-request tracing state. -/
def runGetOrder (order_id client_ip : String) (upstream_ms : Rat) :
    TraceState × Except Exn OrderResponse :=
  get_order order_id client_ip upstream_ms none initState

/-- The first span with the given name, if any. -/
def findSpan (st : TraceState) (n : String) : Option Span :=
  st.spans.find? fun sp => sp.name == n

/-- Whether every span's trace id agrees with its parent's trace id (spec §3
invariant): for each span with a recorded parent, any span carrying the
parent's span id has the same trace id. -/
def traceIdsConsistent (st : TraceState) : Bool :=
  st.spans.all fun sp =>
    match sp.ctx.parentSpanId with
    | none => true
    | some pid =>
        st.spans.all fun par =>
          !(par.ctx.spanId == pid) || (par.ctx.traceId == sp.ctx.traceId)

/-- Modelled from the spec (§3, §4.4): the batching pipeline's state — the
bounded buffer of ended spans awaiting export, its capacity, the drop
counter, the batches already exported, the shutdown flag, and a counter of
reported errors (calls arriving after shutdown). -/
structure BatchProcessor (α : Type) where
  buffer : List α
  capacity : Nat
  drops : Nat
  exported : List (List α)
  isShutdown : Bool
  errors : Nat
deriving DecidableEq, Repr

/-- Modelled from the spec (§4.4 `on_end`): a non-blocking enqueue — a total
function of the processor state, never waiting on export I/O.  A call after
shutdown is reported as an error, not silently dropped; when the bounded
buffer is full, the incoming span is dropped (explicit drop-incoming policy)
and the drop counter is incremented by one. -/
def onEnd {α : Type} (p : BatchProcessor α) (s : α) : BatchProcessor α :=
  if p.isShutdown then { p with errors := p.errors + 1 }
  else if p.buffer.length < p.capacity then { p with buffer := p.buffer ++ [s] }
  else { p with drops := p.drops + 1 }

/-- Modelled from the spec (§4.4): a flush drains the current buffer contents
and sends them to the exporter as one batch; an empty buffer yields no
batch. -/
def forceFlush {α : Type} (p : BatchProcessor α) : BatchProcessor α :=
  if p.buffer.isEmpty then p
  else { p with buffer := [], exported := p.exported ++ [p.buffer] }

/-- Modelled from the spec (§4.4 `shutdown`): flushes any remaining buffered
spans, then stops the background loop; shutting down an already-stopped
processor changes nothing. -/
def shutdown {α : Type} (p : BatchProcessor α) : BatchProcessor α :=
  if p.isShutdown then p
  else { forceFlush p with isShutdown := true }

/-- Helper for evaluating non-failing runs: `check_inventory`
(src/app.py lines 138-155) with the `order_id == "fail"` branch resolved to
the normal path. -/
def check_inventory_nf (order_id : String) :
    Option SpanContext → TraceState → TraceState × Except Exn Unit :=
  withSpan "inventory.check" fun span st =>
    let st := setAttribute span.spanId "app.inventory.region" (AttrValue.str "eu-central") st
    let st := addEvent span.spanId "inventory.lookup.start"
      [("order.id", AttrValue.str order_id)] st
    (addEvent span.spanId "inventory.lookup.end" [("available", AttrValue.bool true)] st,
     Except.ok ())

/-- A two-span state (span 0 running, span 1 ended) used to exercise the
`set_attribute` contract. -/
def demoState : TraceState :=
  { spans :=
      [{ ctx := ⟨0, 0, none⟩, name := "demo.running",
         attributes := [("k", AttrValue.int 0)], events := [],
         status := SpanStatus.unset, ended := false },
       { ctx := ⟨0, 1, some 0⟩, name := "demo.ended", attributes := [], events := [],
         status := SpanStatus.unset, ended := true }]
    nextSpanId := 2
    nextTraceId := 1
    violations := []
    httpCalls := 0 }

/-- The error message of the simulated inventory failure. -/
abbrev invMsg : String := "Inventory system unavailable for this ID"

/-- The "load-order" span of a run, with the given events and ended flag. -/
abbrev sp0 (oid : String) (evs : List SpanEvent) (fin : Bool) : Span :=
  { ctx := ⟨0, 0, none⟩
    name := "load-order"
    attributes := [("app.order_id", AttrValue.str oid),
      ("telecom.3gpp.session.id", AttrValue.str ("pdu-" ++ padZeros6 oid))]
    events := evs
    status := SpanStatus.unset
    ended := fin }

/-- The finished "db.lookup.order" span of a run. -/
abbrev sp1 (oid : String) : Span :=
  { ctx := ⟨0, 1, some 0⟩
    name := "db.lookup.order"
    attributes := [("db.system", AttrValue.str "sqlite"),
      ("db.statement", AttrValue.str "SELECT * FROM orders WHERE id = ?"),
      ("telecom.3gpp.slice.service.type", AttrValue.int 1)]
    events := [⟨"db.lookup.start", [("order.id", AttrValue.str oid)]⟩,
      ⟨"db.lookup.end", [("row.count", AttrValue.int 1)]⟩]
    status := SpanStatus.unset
    ended := true }

/-- The finished "db.lookup.cache" span of a run. -/
abbrev sp2 (oid : String) : Span :=
  { ctx := ⟨0, 2, some 1⟩
    name := "db.lookup.cache"
    attributes := [("cache.hit", AttrValue.bool true),
      ("cache.system", AttrValue.str "redis")]
    events := [⟨"cache.fetch", [("key", AttrValue.str ("order:" ++ oid))]⟩]
    status := SpanStatus.unset
    ended := true }

/-- The "radio.context.enrichment" span while still running. -/
abbrev sp3run (oid : String) : Span :=
  { ctx := ⟨0, 3, some 0⟩
    name := "radio.context.enrichment"
    attributes := [("telecom.3gpp.ue.supi", AttrValue.str ("imsi-26201" ++ padZeros6 oid)),
      ("telecom.3gpp.qos.flow.5qi", AttrValue.int 9),
      ("telecom.3gpp.qos.slice.sd", AttrValue.str "010203")]
    events := []
    status := SpanStatus.unset
    ended := false }

/-- The finished "radio.context.enrichment" span of a run. -/
abbrev sp3 (oid : String) : Span :=
  { sp3run oid with events := [⟨"radio.context.complete", []⟩], ended := true }

/-- The finished "o-ran.near-rt-ric.policy" span of a run. -/
abbrev sp4 (oid : String) : Span :=
  { ctx := ⟨0, 4, some 3⟩
    name := "o-ran.near-rt-ric.policy"
    attributes := [("telecom.o-ran.near_rt_ric.id", AttrValue.str "ric-210-ne"),
      ("telecom.o-ran.policy.id", AttrValue.str "policy-5qi9-lowlat")]
    events := [⟨"o-ran.policy.apply", [("order.id", AttrValue.str oid),
      ("telecom.o-ran.ran.slice", AttrValue.str "cot-slice-09")]⟩]
    status := SpanStatus.unset
    ended := true }

/-- The finished "o-ran.o-du.health" span of a run. -/
abbrev sp5 : Span :=
  { ctx := ⟨0, 5, some 3⟩
    name := "o-ran.o-du.health"
    attributes := [("telecom.o-ran.o_du.id", AttrValue.str "odu-201"),
      ("telecom.o-ran.o_du.state", AttrValue.str "active")]
    events := [⟨"o-ran.o-du.heartbeat", [("latency.ms", AttrValue.rat (23 / 10))]⟩]
    status := SpanStatus.unset
    ended := true }

/-- The finished "inventory.check" span of a successful run. -/
abbrev sp6 (oid : String) : Span :=
  { ctx := ⟨0, 6, some 0⟩
    name := "inventory.check"
    attributes := [("app.inventory.region", AttrValue.str "eu-central")]
    events := [⟨"inventory.lookup.start", [("order.id", AttrValue.str oid)]⟩,
      ⟨"inventory.lookup.end", [("available", AttrValue.bool true)]⟩]
    status := SpanStatus.unset
    ended := true }

/-- The finished "charging.session.lookup" span of a run. -/
abbrev sp7 (oid : String) : Span :=
  { ctx := ⟨0, 7, some 0⟩
    name := "charging.session.lookup"
    attributes := [("telecom.3gpp.pcrf.id", AttrValue.str "pcrf-12"),
      ("telecom.3gpp.ccf.mode", AttrValue.str "online")]
    events := [⟨"charging.session.start", [("order.id", AttrValue.str oid)]⟩,
      ⟨"charging.session.validated", [("quota.mb", AttrValue.int 2048)]⟩]
    status := SpanStatus.unset
    ended := true }

/-- The exception event recorded for the simulated `RuntimeError`. -/
abbrev exEvRT : SpanEvent :=
  ⟨"exception", [("exception.type", AttrValue.str "RuntimeError"),
    ("exception.message", AttrValue.str invMsg)]⟩

/-- The exception event recorded for the propagating `HTTPException`. -/
abbrev exEvHTTP : SpanEvent :=
  ⟨"exception", [("exception.type", AttrValue.str "HTTPException"),
    ("exception.message", AttrValue.str ("500: " ++ invMsg))]⟩

/-- The finished "inventory.check" span of the failing run. -/
abbrev sp6f : Span :=
  { ctx := ⟨0, 6, some 0⟩
    name := "inventory.check"
    attributes := [("app.inventory.region", AttrValue.str "eu-central")]
    events := [⟨"inventory.lookup.start", [("order.id", AttrValue.str "fail")]⟩,
      exEvRT, exEvRT]
    status := SpanStatus.error invMsg
    ended := true }

/-- The finished "load-order" span of the failing run. -/
abbrev sp0f : Span :=
  { ctx := ⟨0, 0, none⟩
    name := "load-order"
    attributes := [("app.order_id", AttrValue.str "fail"),
      ("telecom.3gpp.session.id", AttrValue.str ("pdu-" ++ padZeros6 "fail"))]
    events := [exEvRT, ⟨"order.load.failed", [("reason", AttrValue.str invMsg)]⟩, exEvHTTP]
    status := SpanStatus.error ("500: " ++ invMsg)
    ended := true }

/-- The state just before the three-way gather of `get_order`. -/
abbrev stA (oid : String) : TraceState :=
  { spans := [sp0 oid [] false]
    nextSpanId := 1
    nextTraceId := 1
    violations := []
    httpCalls := 0 }

/-- The state after the `simulate_db_lookup` branch. -/
abbrev stB (oid : String) : TraceState :=
  { spans := [sp0 oid [] false, sp1 oid, sp2 oid]
    nextSpanId := 3
    nextTraceId := 1
    violations := []
    httpCalls := 0 }

/-- The state inside `enrich_with_radio_context`, just before its gather. -/
abbrev stB1 (oid : String) : TraceState :=
  { spans := [sp0 oid [] false, sp1 oid, sp2 oid, sp3run oid]
    nextSpanId := 4
    nextTraceId := 1
    violations := []
    httpCalls := 0 }

/-- The state after the `fetch_near_rt_ric_policy` branch. -/
abbrev stB2 (oid : String) : TraceState :=
  { spans := [sp0 oid [] false, sp1 oid, sp2 oid, sp3run oid, sp4 oid]
    nextSpanId := 5
    nextTraceId := 1
    violations := []
    httpCalls := 0 }

/-- The state after the `check_o_du_health` branch. -/
abbrev stB3 (oid : String) : TraceState :=
  { spans := [sp0 oid [] false, sp1 oid, sp2 oid, sp3run oid, sp4 oid, sp5]
    nextSpanId := 6
    nextTraceId := 1
    violations := []
    httpCalls := 0 }

/-- The state after the `enrich_with_radio_context` branch. -/
abbrev stC (oid : String) : TraceState :=
  { spans := [sp0 oid [] false, sp1 oid, sp2 oid, sp3 oid, sp4 oid, sp5]
    nextSpanId := 6
    nextTraceId := 1
    violations := []
    httpCalls := 0 }

/-- The state after a successful `check_inventory`. -/
abbrev stD (oid : String) : TraceState :=
  { spans := [sp0 oid [] false, sp1 oid, sp2 oid, sp3 oid, sp4 oid, sp5, sp6 oid]
    nextSpanId := 7
    nextTraceId := 1
    violations := []
    httpCalls := 0 }

/-- The state after `check_charging_session` in a successful run. -/
abbrev stE (oid : String) : TraceState :=
  { spans := [sp0 oid [] false, sp1 oid, sp2 oid, sp3 oid, sp4 oid, sp5, sp6 oid, sp7 oid]
    nextSpanId := 8
    nextTraceId := 1
    violations := []
    httpCalls := 0 }

/-- The state at the end of the "load-order" scope in a successful run. -/
abbrev stF0 (oid : String) : TraceState :=
  { spans := [sp0 oid [⟨"order.load.complete", []⟩] true, sp1 oid, sp2 oid, sp3 oid,
      sp4 oid, sp5, sp6 oid, sp7 oid]
    nextSpanId := 8
    nextTraceId := 1
    violations := []
    httpCalls := 0 }

/-- The final state of a successful run (after the outbound httpx call). -/
abbrev stFin (oid : String) : TraceState :=
  { stF0 oid with httpCalls := 1 }

/-- The state after the failing `check_inventory`. -/
abbrev stDf : TraceState :=
  { spans := [sp0 "fail" [] false, sp1 "fail", sp2 "fail", sp3 "fail", sp4 "fail", sp5, sp6f]
    nextSpanId := 7
    nextTraceId := 1
    violations := []
    httpCalls := 0 }

/-- The state after `check_charging_session` in the failing run. -/
abbrev stEf : TraceState :=
  { spans := [sp0 "fail" [] false, sp1 "fail", sp2 "fail", sp3 "fail", sp4 "fail", sp5,
      sp6f, sp7 "fail"]
    nextSpanId := 8
    nextTraceId := 1
    violations := []
    httpCalls := 0 }

/-- The final state of the failing run. -/
abbrev stF0f : TraceState :=
  { spans := [sp0f, sp1 "fail", sp2 "fail", sp3 "fail", sp4 "fail", sp5, sp6f, sp7 "fail"]
    nextSpanId := 8
    nextTraceId := 1
    violations := []
    httpCalls := 0 }

/-- Writing a key with `setAttrList` makes the new value the one stored under the key. -/
lemma lookupAttr_setAttrList (l : List (String × AttrValue)) (k : String) (v : AttrValue) :
    lookupAttr (setAttrList l k v) k = some v := by
  induction l with
  | nil => simp [setAttrList, lookupAttr]
  | cons p rest ih =>
      by_cases hp : p.1 = k <;> simp [setAttrList, lookupAttr, hp, ih]

/-- For `order_id ≠ "fail"`, `check_inventory` follows the normal path. -/
lemma check_inventory_eq_nf {oid : String} (h : ¬ oid = "fail") :
    check_inventory oid = check_inventory_nf oid := by
  funext a st
  simp only [check_inventory, check_inventory_nf, if_neg h]

/-- Evaluation of the `simulate_db_lookup` branch. -/
lemma eval_db (oid : String) :
    simulate_db_lookup oid (some ⟨0, 0, none⟩) (stA oid) = (stB oid, Except.ok ()) := by
  simp [simulate_db_lookup, withSpan, startSpan, setAttribute, addEvent, endSpan,
    updateSpan, getSpan, setAttrList]

/-- Evaluation of the `fetch_near_rt_ric_policy` branch. -/
lemma eval_ric (oid : String) :
    fetch_near_rt_ric_policy oid (some ⟨0, 3, some 0⟩) (stB1 oid) =
      (stB2 oid, Except.ok ()) := by
  simp [fetch_near_rt_ric_policy, withSpan, startSpan, setAttribute, addEvent, endSpan,
    updateSpan, getSpan, setAttrList]

/-- Evaluation of the `check_o_du_health` branch. -/
lemma eval_odu (oid : String) :
    check_o_du_health (some ⟨0, 3, some 0⟩) (stB2 oid) = (stB3 oid, Except.ok ()) := by
  simp [check_o_du_health, withSpan, startSpan, setAttribute, addEvent, endSpan,
    updateSpan, getSpan, setAttrList]

seal fetch_near_rt_ric_policy check_o_du_health

/-- Evaluation of the `enrich_with_radio_context` branch. -/
lemma eval_radio (oid : String) :
    enrich_with_radio_context oid (some ⟨0, 0, none⟩) (stB oid) = (stC oid, Except.ok ()) := by
  simp [enrich_with_radio_context, withSpan, startSpan, gather2, setAttribute, addEvent,
    endSpan, updateSpan, getSpan, setAttrList, eval_ric, eval_odu]

/-- Evaluation of a successful `check_inventory` (normal path). -/
lemma eval_inv (oid : String) :
    check_inventory_nf oid (some ⟨0, 0, none⟩) (stC oid) = (stD oid, Except.ok ()) := by
  simp [check_inventory_nf, withSpan, startSpan, setAttribute, addEvent, endSpan,
    updateSpan, getSpan, setAttrList]

/-- Evaluation of the failing `check_inventory`. -/
lemma eval_inv_fail :
    check_inventory "fail" (some ⟨0, 0, none⟩) (stC "fail") =
      (stDf, Except.error (Exn.runtimeError invMsg)) := by
  simp [check_inventory, withSpan, startSpan, setAttribute, addEvent, recordException,
    setStatus, endSpan, updateSpan, getSpan, setAttrList, exnType, exnMessage]

/-- Evaluation of `check_charging_session` in a successful run. -/
lemma eval_chg (oid : String) :
    check_charging_session oid (some ⟨0, 0, none⟩) (stD oid) = (stE oid, Except.ok ()) := by
  simp [check_charging_session, withSpan, startSpan, setAttribute, addEvent, endSpan,
    updateSpan, getSpan, setAttrList]

/-- Evaluation of `check_charging_session` in the failing run. -/
lemma eval_chg_fail :
    check_charging_session "fail" (some ⟨0, 0, none⟩) stDf = (stEf, Except.ok ()) := by
  simp [check_charging_session, withSpan, startSpan, setAttribute, addEvent, endSpan,
    updateSpan, getSpan, setAttrList]

seal simulate_db_lookup enrich_with_radio_context check_inventory check_inventory_nf
seal check_charging_session

/-- Rendering of the HTTP status code. -/
lemma ts500 : toString (500 : Nat) = "500" := rfl

/-- Evaluation of the "load-order" scope for a successful run. -/
lemma eval_scope_ok {oid : String} (h : ¬ oid = "fail") :
    get_order_span_scope oid none initState = (stF0 oid, Except.ok ()) := by
  simp [get_order_span_scope, withSpan, startSpan, gather3, run_fulfilment_checks,
    gather2, setAttribute, addEvent, endSpan, updateSpan, getSpan, setAttrList,
    initState, check_inventory_eq_nf h, eval_db, eval_radio, eval_inv, eval_chg]

/-- Evaluation of the "load-order" scope for the failing run. -/
lemma eval_scope_fail :
    get_order_span_scope "fail" none initState =
      (stF0f, Except.error (Exn.httpException 500 invMsg)) := by
  simp [get_order_span_scope, withSpan, startSpan, gather3, run_fulfilment_checks,
    gather2, setAttribute, addEvent, recordException, setStatus, endSpan, updateSpan,
    getSpan, setAttrList, initState, exnType, exnMessage, ts500,
    eval_db, eval_radio, eval_inv_fail, eval_chg_fail]

seal get_order_span_scope

/-- Full evaluation of a successful request handling. -/
lemma runGetOrder_ok {oid : String} (ip : String) (ms : Rat) (h : ¬ oid = "fail") :
    runGetOrder oid ip ms =
      (stFin oid, Except.ok { id := oid, status := "ok", upstream_ms := ms }) := by
  simp [runGetOrder, get_order, eval_scope_ok h, setAttributeOnCurrent, getCurrentSpan]

/-- Full evaluation of the failing request handling. -/
lemma runGetOrder_fail (ip : String) (ms : Rat) :
    runGetOrder "fail" ip ms = (stF0f, Except.error (Exn.httpException 500 invMsg)) := by
  simp [runGetOrder, get_order, eval_scope_fail]

/-- Updating one span by id commutes with looking that span up, for updates
that do not change the span's context. -/
lemma getSpan_updateSpan (st : TraceState) (sid : Nat) (f : Span → Span)
    (hf : ∀ s, (f s).ctx = s.ctx) :
    getSpan (updateSpan sid f st) sid =
      (getSpan st sid).map fun s => if s.ctx.spanId = sid then f s else s := by
  show (st.spans.map fun s => if s.ctx.spanId = sid then f s else s).find?
        (fun s => s.ctx.spanId == sid) =
      (st.spans.find? fun s => s.ctx.spanId == sid).map fun s =>
        if s.ctx.spanId = sid then f s else s
  rw [List.find?_map]
  have hpred :
      ((fun s => s.ctx.spanId == sid) ∘ fun s => if s.ctx.spanId = sid then f s else s) =
        fun s => s.ctx.spanId == sid := by
    funext s
    by_cases hs : s.ctx.spanId = sid <;> simp [Function.comp, hs, hf]
  rw [hpred]

/-- C1: whenever N sub-operations are gathered concurrently under an active
span S (the three-way gather in `get_order`, the two-way gathers in
`enrich_with_radio_context` and `run_fulfilment_checks`), the first span of
each branch has `parent_span_id = S.span_id`, and a nested activation inside
one branch (db.lookup.cache under db.lookup.order, the two o-ran spans under
radio.context.enrichment) is never seen as parent by a sibling branch: for
every order id the run produces exactly this parent map. -/
theorem claim_C1 (oid ip : String) (ms : Rat) :
    ((runGetOrder oid ip ms).1.spans.map fun sp => (sp.name, sp.ctx.spanId)) =
      [("load-order", 0), ("db.lookup.order", 1), ("db.lookup.cache", 2),
       ("radio.context.enrichment", 3), ("o-ran.near-rt-ric.policy", 4),
       ("o-ran.o-du.health", 5), ("inventory.check", 6),
       ("charging.session.lookup", 7)] ∧
    ((runGetOrder oid ip ms).1.spans.map fun sp => (sp.name, sp.ctx.parentSpanId)) =
      [("load-order", none), ("db.lookup.order", some 0), ("db.lookup.cache", some 1),
       ("radio.context.enrichment", some 0), ("o-ran.near-rt-ric.policy", some 3),
       ("o-ran.o-du.health", some 3), ("inventory.check", some 0),
       ("charging.session.lookup", some 0)] := by
  by_cases h : oid = "fail"
  · subst h
    rw [runGetOrder_fail ip ms]
    exact ⟨rfl, rfl⟩
  · rw [runGetOrder_ok ip ms h]
    exact ⟨rfl, rfl⟩

/-- C2: when an operation under `start_as_current_span` raises (as
`check_inventory` does for order id "fail"), the enclosing spans
("inventory.check", and "load-order" which the HTTPException escapes) are
ended with Error status and a recorded exception event, and the exception
still propagates out of the span scope to the caller instead of being
suppressed. -/
theorem claim_C2 (ip : String) (ms : Rat) :
    (runGetOrder "fail" ip ms).2 =
      Except.error (Exn.httpException 500 "Inventory system unavailable for this ID") ∧
    ((findSpan (runGetOrder "fail" ip ms).1 "inventory.check").map fun sp =>
      (sp.ended, sp.status.isError, sp.events.any fun ev => ev.name == "exception")) =
      some (true, true, true) ∧
    ((findSpan (runGetOrder "fail" ip ms).1 "load-order").map fun sp =>
      (sp.ended, sp.status.isError, sp.events.any fun ev => ev.name == "exception")) =
      some (true, true, true) := by
  rw [runGetOrder_fail ip ms]
  exact ⟨rfl, rfl, rfl⟩

/-- C3 (counterexample): in the failing run there is no span named
"fulfilment.checks" at all (`run_fulfilment_checks` starts no span of its
own), and the sibling "db.lookup.order" span ends with status Unset, not
Ok — refuting the claim as stated. -/
theorem claim_C3_counterexample :
    findSpan (runGetOrder "fail" "203.0.113.7" 0).1 "fulfilment.checks" = none ∧
    (findSpan (runGetOrder "fail" "203.0.113.7" 0).1 "db.lookup.order").map Span.status =
      some SpanStatus.unset := by
  rw [runGetOrder_fail]
  exact ⟨rfl, rfl⟩

/-- C3 (amended): the root span "load-order" has four concurrently started
children — "db.lookup.order", "radio.context.enrichment", "inventory.check"
and "charging.session.lookup" (`run_fulfilment_checks` creates no
"fulfilment.checks" span) — each with the root's span id 0 as parent; when
the "inventory.check" leaf fails, exactly "inventory.check" and its ancestor
"load-order" carry Error status while all other spans, including the
"db.lookup.order" subtree, keep status Unset. -/
theorem claim_C3 (ip : String) (ms : Rat) :
    ((runGetOrder "fail" ip ms).1.spans.map fun sp =>
      (sp.name, sp.ctx.parentSpanId, sp.status)) =
      [("load-order", none,
         SpanStatus.error "500: Inventory system unavailable for this ID"),
       ("db.lookup.order", some 0, SpanStatus.unset),
       ("db.lookup.cache", some 1, SpanStatus.unset),
       ("radio.context.enrichment", some 0, SpanStatus.unset),
       ("o-ran.near-rt-ric.policy", some 3, SpanStatus.unset),
       ("o-ran.o-du.health", some 3, SpanStatus.unset),
       ("inventory.check", some 0,
         SpanStatus.error "Inventory system unavailable for this ID"),
       ("charging.session.lookup", some 0, SpanStatus.unset)] := by
  rw [runGetOrder_fail ip ms]
  rfl

/-- C4: every span created during one handling of `get_order` carries the
same trace id as its parent (whenever a parent exists), and in particular the
same trace id as the "load-order" root span. -/
theorem claim_C4 (oid ip : String) (ms : Rat) :
    traceIdsConsistent (runGetOrder oid ip ms).1 = true ∧
    ((runGetOrder oid ip ms).1.spans.all fun sp => sp.ctx.traceId == 0) = true ∧
    ((findSpan (runGetOrder oid ip ms).1 "load-order").map fun sp => sp.ctx.traceId) =
      some 0 := by
  by_cases h : oid = "fail"
  · subst h
    rw [runGetOrder_fail ip ms]
    exact ⟨rfl, rfl, rfl⟩
  · rw [runGetOrder_ok ip ms h]
    exact ⟨rfl, rfl, rfl⟩

/-- C5: events recorded by one concurrently launched branch land only on that
branch's own spans — in particular the sibling branches
`fetch_near_rt_ric_policy` and `check_o_du_health` launched together under
"radio.context.enrichment" each carry exactly their own events and nothing
from the sibling's subtree. -/
theorem claim_C5 (oid ip : String) (ms : Rat) :
    ((findSpan (runGetOrder oid ip ms).1 "o-ran.near-rt-ric.policy").map fun sp =>
      sp.events.map SpanEvent.name) = some ["o-ran.policy.apply"] ∧
    ((findSpan (runGetOrder oid ip ms).1 "o-ran.o-du.health").map fun sp =>
      sp.events.map SpanEvent.name) = some ["o-ran.o-du.heartbeat"] ∧
    ((findSpan (runGetOrder oid ip ms).1 "db.lookup.order").map fun sp =>
      sp.events.map SpanEvent.name) = some ["db.lookup.start", "db.lookup.end"] ∧
    ((findSpan (runGetOrder oid ip ms).1 "db.lookup.cache").map fun sp =>
      sp.events.map SpanEvent.name) = some ["cache.fetch"] ∧
    ((findSpan (runGetOrder oid ip ms).1 "radio.context.enrichment").map fun sp =>
      sp.events.map SpanEvent.name) = some ["radio.context.complete"] ∧
    ((findSpan (runGetOrder oid ip ms).1 "charging.session.lookup").map fun sp =>
      sp.events.map SpanEvent.name) =
      some ["charging.session.start", "charging.session.validated"] := by
  by_cases h : oid = "fail"
  · subst h
    rw [runGetOrder_fail ip ms]
    exact ⟨rfl, rfl, rfl, rfl, rfl, rfl⟩
  · rw [runGetOrder_ok ip ms h]
    exact ⟨rfl, rfl, rfl, rfl, rfl, rfl⟩

/-- C6: `set_attribute(key, value)` on a running span overwrites any prior
value stored under the key (the lookup afterwards yields the new value),
while on an ended span it leaves the span store unchanged and reports the
call as a contract violation instead of silently ignoring it. -/
theorem claim_C6 (st : TraceState) (sid : Nat) (k : String) (v : AttrValue) (sp : Span)
    (h : getSpan st sid = some sp) :
    (sp.ended = false →
      ((getSpan (setAttribute sid k v st) sid).map fun s => lookupAttr s.attributes k) =
        some (some v)) ∧
    (sp.ended = true →
      (setAttribute sid k v st).spans = st.spans ∧
      (setAttribute sid k v st).violations =
        st.violations ++ ["set_attribute after end: " ++ k]) := by
  constructor
  · intro hrun
    have hset : setAttribute sid k v st =
        updateSpan sid (fun s => { s with attributes := setAttrList s.attributes k v }) st := by
      simp [setAttribute, h, hrun]
    have hfind : st.spans.find? (fun s => s.ctx.spanId == sid) = some sp := h
    have hsp : sp.ctx.spanId = sid := by
      have hp := List.find?_some hfind
      simpa using hp
    rw [hset,
      getSpan_updateSpan st sid
        (fun s => { s with attributes := setAttrList s.attributes k v }) fun s => rfl,
      h]
    simp [hsp, lookupAttr_setAttrList]
  · intro hend
    refine ⟨?_, ?_⟩ <;> simp [setAttribute, h, hend]

/-- C6 witness: on the concrete two-span state, setting "k" on the running
span 0 overwrites the prior value, and setting an attribute on the ended
span 1 leaves the spans unchanged and appends a reported violation. -/
theorem claim_C6_witness :
    ((getSpan (setAttribute 0 "k" (AttrValue.int 1) demoState) 0).map fun s =>
      lookupAttr s.attributes "k") = some (some (AttrValue.int 1)) ∧
    ((setAttribute 1 "quota" (AttrValue.int 2) demoState).spans = demoState.spans ∧
      (setAttribute 1 "quota" (AttrValue.int 2) demoState).violations =
        demoState.violations ++ ["set_attribute after end: " ++ "quota"]) :=
  ⟨(claim_C6 demoState 0 "k" (AttrValue.int 1) _ rfl).1 rfl,
   (claim_C6 demoState 1 "quota" (AttrValue.int 2) _ rfl).2 rfl⟩

/-- C7: when a span ends while the batch buffer is already at capacity, the
non-blocking enqueue drops exactly the incoming span (the explicit policy),
increments the drop counter by one and leaves the buffer unchanged; with
capacity 2 and three spans ending with no intervening flush, exactly one drop
is counted and the buffer holds the two policy winners. -/
theorem claim_C7 (p : BatchProcessor Nat) (s : Nat)
    (h1 : p.isShutdown = false) (h2 : p.buffer.length = p.capacity) :
    onEnd p s = { p with drops := p.drops + 1 } ∧
    (onEnd p s).buffer = p.buffer ∧
    onEnd (onEnd (onEnd (⟨[], 2, 0, [], false, 0⟩ : BatchProcessor Nat) 1) 2) 3 =
      ⟨[1, 2], 2, 1, [], false, 0⟩ := by
  have hmain : onEnd p s = { p with drops := p.drops + 1 } := by
    simp [onEnd, h1, h2]
  exact ⟨hmain, by rw [hmain], by decide⟩

/-- C7 witness: a full processor of capacity 2 drops the incoming span and
counts one drop. -/
theorem claim_C7_witness :
    onEnd (⟨[5, 6], 2, 0, [], false, 0⟩ : BatchProcessor Nat) 7 =
      { (⟨[5, 6], 2, 0, [], false, 0⟩ : BatchProcessor Nat) with drops := 0 + 1 } :=
  (claim_C7 ⟨[5, 6], 2, 0, [], false, 0⟩ 7 rfl rfl).1

/-- C8: a second `shutdown` after a first one changes nothing — in particular
it exports no additional spans and does not crash — and an `on_end` arriving
after shutdown is reported as an error (the error counter grows) rather than
silently enqueued or dropped. -/
theorem claim_C8 (p : BatchProcessor Nat) (s : Nat) :
    shutdown (shutdown p) = shutdown p ∧
    (shutdown (shutdown p)).exported = (shutdown p).exported ∧
    onEnd (shutdown p) s = { shutdown p with errors := (shutdown p).errors + 1 } ∧
    (onEnd (shutdown p) s).buffer = (shutdown p).buffer := by
  have hsd : (shutdown p).isShutdown = true := by
    by_cases hp : p.isShutdown <;> simp [shutdown, hp]
  obtain ⟨q, hq⟩ : ∃ q, shutdown p = q := ⟨_, rfl⟩
  rw [hq] at hsd ⊢
  refine ⟨?_, ?_, ?_, ?_⟩ <;> simp [shutdown, onEnd, hsd]

/-- C9: FastAPI auto-instrumentation is commented out, so no server span
exists: after the "load-order" scope exits, the current span is the
non-recording span and setting attributes on it changes nothing — the final
span store equals the one at the end of the span scope, no violations are
added, and no span ever carries the post-scope-only keys "enduser.id",
"client.address" or "app.upstream_ms". -/
theorem claim_C9 (oid ip : String) (ms : Rat) :
    (∀ (k : String) (v : AttrValue) (st : TraceState),
      setAttributeOnCurrent (getCurrentSpan none) k v st = st) ∧
    (runGetOrder oid ip ms).1.spans = (get_order_span_scope oid none initState).1.spans ∧
    (runGetOrder oid ip ms).1.violations =
      (get_order_span_scope oid none initState).1.violations ∧
    ((runGetOrder oid ip ms).1.spans.all fun sp =>
      sp.attributes.all fun p =>
        !(p.1 == "enduser.id") && !(p.1 == "client.address") &&
          !(p.1 == "app.upstream_ms")) = true := by
  refine ⟨fun k v st => rfl, ?_, ?_, ?_⟩ <;> by_cases h : oid = "fail"
  · subst h; rw [runGetOrder_fail ip ms, eval_scope_fail]
  · rw [runGetOrder_ok ip ms h, eval_scope_ok h]
  · subst h; rw [runGetOrder_fail ip ms, eval_scope_fail]
  · rw [runGetOrder_ok ip ms h, eval_scope_ok h]
  · subst h; rw [runGetOrder_fail ip ms]; rfl
  · rw [runGetOrder_ok ip ms h]; rfl

/-- C10: for order id "fail", `get_order` raises HTTPException 500 with
detail "Inventory system unavailable for this ID", the "load-order" span gets
the "order.load.failed" event (and never "order.load.complete"), and neither
the outbound httpx call nor the normal JSON return happens; for every other
order id the handler returns the ok response, adds "order.load.complete" and
performs the one outbound call. -/
theorem claim_C10 (oid ip : String) (ms : Rat) :
    (runGetOrder "fail" ip ms).2 =
      Except.error (Exn.httpException 500 "Inventory system unavailable for this ID") ∧
    ((findSpan (runGetOrder "fail" ip ms).1 "load-order").map fun sp =>
      sp.events.map SpanEvent.name) = some ["exception", "order.load.failed", "exception"] ∧
    (runGetOrder "fail" ip ms).1.httpCalls = 0 ∧
    (¬ oid = "fail" →
      (runGetOrder oid ip ms).2 =
        Except.ok { id := oid, status := "ok", upstream_ms := ms } ∧
      ((findSpan (runGetOrder oid ip ms).1 "load-order").map fun sp =>
        sp.events.map SpanEvent.name) = some ["order.load.complete"] ∧
      (runGetOrder oid ip ms).1.httpCalls = 1) := by
  refine ⟨?_, ?_, ?_, fun h => ?_⟩
  · rw [runGetOrder_fail ip ms]
  · rw [runGetOrder_fail ip ms]; rfl
  · rw [runGetOrder_fail ip ms]
  · rw [runGetOrder_ok ip ms h]
    exact ⟨rfl, rfl, rfl⟩

/-- C10 witness: the success side instantiated at the concrete order id
"o42". -/
theorem claim_C10_witness :
    (runGetOrder "o42" "10.0.0.9" 7).2 =
      Except.ok { id := "o42", status := "ok", upstream_ms := 7 } ∧
    ((findSpan (runGetOrder "o42" "10.0.0.9" 7).1 "load-order").map fun sp =>
      sp.events.map SpanEvent.name) = some ["order.load.complete"] ∧
    (runGetOrder "o42" "10.0.0.9" 7).1.httpCalls = 1 :=
  (claim_C10 "o42" "10.0.0.9" 7).2.2.2 (by decide)

end TracingDemo
